import Mathlib

/-!
Shallow embedding of the AIVA vision-assistant backend (src/backend/main.py)
and verification of the frozen claims about it.

Modelling conventions:
* Python dicts (insertion-ordered, unique keys) are association lists
  `List (String × α)`; `dictInsert` replaces in place or appends, matching
  CPython semantics, `dictErase` models `del`.
* Wall-clock instants are natural numbers of seconds; ISO-8601 timestamp
  strings compare chronologically, so they are modelled by their numeric
  instant.  Python's `timedelta.seconds` field of a difference of instants
  is `pySeconds` (the total difference modulo 86400, Euclidean).
* The base64 transport payload of a frame is kept abstract as the string
  itself; the decoded bytes of a frame are identified with that payload.
* Fallible dispatch (`execute_tool` applying `**arguments`) is `Except`:
  a `TypeError` raised by keyword-argument binding is `.error`.
-/

namespace Aiva

set_option maxRecDepth 100000

/-- Lookup in a Python dict modelled as an association list
(first entry with the key, as keys are unique). -/
def dictGet? {α : Type} (d : List (String × α)) (k : String) : Option α :=
  match d with
  | [] => none
  | p :: rest => if p.1 = k then some p.2 else dictGet? rest k

/-- Python `d[k] = v`: replace the value in place if the key is present,
otherwise append the new binding at the end (insertion order). -/
def dictInsert {α : Type} (d : List (String × α)) (k : String) (v : α) : List (String × α) :=
  match d with
  | [] => [(k, v)]
  | p :: rest => if p.1 = k then (k, v) :: rest else p :: dictInsert rest k v

/-- Python `del d[k]`: drop the (unique) entry with key `k`. -/
def dictErase {α : Type} (d : List (String × α)) (k : String) : List (String × α) :=
  match d with
  | [] => []
  | p :: rest => if p.1 = k then rest else p :: dictErase rest k

/-- Python `k in d`. -/
def dictContains {α : Type} (d : List (String × α)) (k : String) : Bool :=
  (dictGet? d k).isSome

/-- The dict invariant: all keys distinct. -/
def keysNodup {α : Type} (d : List (String × α)) : Prop :=
  (d.map Prod.fst).Nodup

instance {α : Type} (d : List (String × α)) : Decidable (keysNodup d) := by
  unfold keysNodup; infer_instance

theorem dictGet?_dictInsert_self {α : Type} (d : List (String × α)) (k : String) (v : α) :
    dictGet? (dictInsert d k v) k = some v := by
  induction d with
  | nil => simp [dictInsert, dictGet?]
  | cons p rest ih =>
    by_cases h : p.1 = k
    · simp [dictInsert, dictGet?, h]
    · simp [dictInsert, dictGet?, h, ih]

theorem dictInsert_eq_append_of_get?_none {α : Type} (d : List (String × α)) (k : String) (v : α)
    (h : dictGet? d k = none) : dictInsert d k v = d ++ [(k, v)] := by
  induction d with
  | nil => simp [dictInsert]
  | cons p rest ih =>
    by_cases hp : p.1 = k
    · simp [dictGet?, hp] at h
    · simp [dictGet?, hp] at h
      simp [dictInsert, hp, ih h]

theorem length_dictInsert_le {α : Type} (d : List (String × α)) (k : String) (v : α) :
    (dictInsert d k v).length ≤ d.length + 1 := by
  induction d with
  | nil => simp [dictInsert]
  | cons p rest ih =>
    by_cases hp : p.1 = k
    · simp [dictInsert, hp]
    · simp only [dictInsert, hp, if_false, List.length_cons]
      omega

theorem length_dictErase_of_get?_some {α : Type} (d : List (String × α)) (k : String) (v : α)
    (h : dictGet? d k = some v) : (dictErase d k).length + 1 = d.length := by
  induction d with
  | nil => simp [dictGet?] at h
  | cons p rest ih =>
    by_cases hp : p.1 = k
    · simp [dictErase, hp]
    · simp [dictGet?, hp] at h
      simp only [dictErase, hp, if_false, List.length_cons]
      rw [← ih h]

theorem mem_dictErase_of_ne {α : Type} {d : List (String × α)} {q : String × α} {k : String}
    (hq : q ∈ d) (hne : q.1 ≠ k) : q ∈ dictErase d k := by
  induction d with
  | nil => simp at hq
  | cons p rest ih =>
    rcases List.mem_cons.mp hq with h | h
    · subst h
      simp [dictErase, hne]
    · by_cases hp : p.1 = k
      · simpa [dictErase, hp] using h
      · simp [dictErase, hp, ih h]

theorem dictGet?_eq_none_of_not_mem_keys {α : Type} {d : List (String × α)} {k : String}
    (h : k ∉ d.map Prod.fst) : dictGet? d k = none := by
  induction d with
  | nil => simp [dictGet?]
  | cons p rest ih =>
    simp only [List.map_cons, List.mem_cons] at h
    push_neg at h
    have : p.1 ≠ k := fun hh => h.1 hh.symm
    simp [dictGet?, this, ih h.2]

theorem dictGet?_dictErase_self {α : Type} {d : List (String × α)} {k : String}
    (hnd : keysNodup d) : dictGet? (dictErase d k) k = none := by
  induction d with
  | nil => simp [dictErase, dictGet?]
  | cons p rest ih =>
    have hnd' : keysNodup rest := by
      simpa [keysNodup] using (List.nodup_cons.mp hnd).2
    by_cases hp : p.1 = k
    · have hnot : p.1 ∉ rest.map Prod.fst := (List.nodup_cons.mp hnd).1
      rw [hp] at hnot
      simp [dictErase, hp, dictGet?_eq_none_of_not_mem_keys hnot]
    · simp [dictErase, hp, dictGet?, ih hnd']

theorem dictGet?_of_mem {α : Type} {d : List (String × α)} {k : String} {v : α}
    (hnd : keysNodup d) (hm : (k, v) ∈ d) : dictGet? d k = some v := by
  induction d with
  | nil => simp at hm
  | cons p rest ih =>
    have hnd' : keysNodup rest := by
      simpa [keysNodup] using (List.nodup_cons.mp hnd).2
    rcases List.mem_cons.mp hm with h | h
    · subst h
      simp [dictGet?]
    · have hk : k ∈ rest.map Prod.fst := List.mem_map.mpr ⟨(k, v), h, rfl⟩
      have hp : p.1 ≠ k := by
        intro hh
        exact (List.nodup_cons.mp hnd).1 (hh ▸ hk)
      simp [dictGet?, hp, ih hnd' h]

theorem mem_keys_dictInsert {α : Type} {d : List (String × α)} {k x : String} {v : α}
    (h : x ∈ (dictInsert d k v).map Prod.fst) : x ∈ d.map Prod.fst ∨ x = k := by
  induction d with
  | nil => simpa [dictInsert] using h
  | cons p rest ih =>
    by_cases hp : p.1 = k
    · simp only [dictInsert, hp, if_true, List.map_cons, List.mem_cons] at h
      rcases h with h | h
      · right; exact h
      · left; simp [h]
    · simp only [dictInsert, hp, if_false, List.map_cons, List.mem_cons] at h
      rcases h with h | h
      · left; simp [h]
      · rcases ih h with h' | h'
        · left; simp [h']
        · right; exact h'

theorem keysNodup_dictInsert {α : Type} {d : List (String × α)} (k : String) (v : α)
    (hnd : keysNodup d) : keysNodup (dictInsert d k v) := by
  induction d with
  | nil => simp [dictInsert, keysNodup]
  | cons p rest ih =>
    have hnd' : keysNodup rest := by
      simpa [keysNodup] using (List.nodup_cons.mp hnd).2
    have hhead : p.1 ∉ rest.map Prod.fst := (List.nodup_cons.mp hnd).1
    by_cases hp : p.1 = k
    · unfold keysNodup
      simp only [dictInsert, hp, if_true, List.map_cons]
      refine List.nodup_cons.mpr ⟨?_, (List.nodup_cons.mp hnd).2⟩
      rw [← hp]; exact hhead
    · unfold keysNodup
      simp only [dictInsert, hp, if_false, List.map_cons]
      refine List.nodup_cons.mpr ⟨?_, ih hnd'⟩
      intro hmem
      rcases mem_keys_dictInsert hmem with h' | h'
      · exact hhead h'
      · exact hp h'

theorem mem_dictInsert_self {α : Type} (d : List (String × α)) (k : String) (v : α) :
    (k, v) ∈ dictInsert d k v := by
  induction d with
  | nil => simp [dictInsert]
  | cons p rest ih =>
    by_cases hp : p.1 = k
    · simp [dictInsert, hp]
    · simp [dictInsert, hp, ih]

/-- Python `str.lower()` (the relevant characters are ASCII). -/
def pyLower (s : String) : String :=
  String.mk (s.data.map Char.toLower)

/-- Does `needle` start the character list `hay`? -/
def startsWithChars : List Char → List Char → Bool
  | [], _ => true
  | _ :: _, [] => false
  | n :: ns, h :: hs => (n == h) && startsWithChars ns hs

/-- Does `needle` occur contiguously somewhere in `hay`?  Models Python's
`needle in hay` substring operator. -/
def occursInChars (needle : List Char) : List Char → Bool
  | [] => needle.isEmpty
  | h :: hs => startsWithChars needle (h :: hs) || occursInChars needle hs

/-- Python `needle in hay` on strings. -/
def strContains (hay needle : String) : Bool :=
  occursInChars needle.data hay.data

theorem startsWithChars_iff (n : List Char) :
    ∀ h : List Char, startsWithChars n h = true ↔ n <+: h := by
  induction n with
  | nil =>
    intro h
    simp [startsWithChars, List.nil_prefix]
  | cons c cs ih =>
    intro h
    cases h with
    | nil =>
      simp [startsWithChars, List.prefix_nil]
    | cons b bs =>
      simp only [startsWithChars, Bool.and_eq_true, beq_iff_eq, List.cons_prefix_cons, ih bs]

theorem occursInChars_iff (needle : List Char) :
    ∀ hay : List Char, occursInChars needle hay = true ↔ needle <:+: hay := by
  intro hay
  induction hay with
  | nil =>
    simp [occursInChars, List.infix_nil, List.isEmpty_iff]
  | cons h hs ih =>
    simp only [occursInChars, Bool.or_eq_true, startsWithChars_iff, ih,
      List.infix_cons_iff]

/-- The `.seconds` field of a Python `timedelta` built from a difference of
`d` whole seconds: the total difference modulo 86400 (Euclidean, as in
Python's floor-mod for a positive modulus). -/
def pySeconds (d : Int) : Int := d % 86400

/-- Python truthiness of the optional frame payload (`None` and the empty
string are falsy). -/
def frameTruthy : Option String → Bool
  | none => false
  | some s => !(s == "")

/-- Metadata recorded for one saved capture (the dict built in
`capture_and_save_frame`).  The ISO timestamp string is modelled by its
numeric instant. -/
structure CaptureInfo where
  filename : String
  filepath : String
  timestamp : Nat
  description : String
  status : String
  size_bytes : Nat
deriving DecidableEq

/-- A session's non-owning view of its own captures (`session_captures`). -/
abbrev Sess : Type := List (String × CaptureInfo)

/-- Process-wide capture-archive state: the in-memory `captured_frames`
dict, the persisted `metadata.json` document, the files on disk in the
captures directory (path to bytes), and a count of `save_metadata` calls
(used to state how often the archive is persisted). -/
structure ArchSt where
  captured_frames : List (String × CaptureInfo)
  disk : List (String × CaptureInfo)
  files : List (String × String)
  persistCount : Nat
deriving DecidableEq

/-- Writes the entire in-memory archive to the single JSON document
(`save_metadata`). -/
def save_metadata (a : ArchSt) : ArchSt :=
  { a with disk := a.captured_frames, persistCount := a.persistCount + 1 }

def MAX_METADATA_ENTRIES : Nat := 100

/-- The duplicate-suppression test of `capture_and_save_frame`: the
session view holds `frame_id` and the recorded timestamp is younger than
5 seconds (in the `timedelta.seconds` sense). -/
def dedupHit (sess : Sess) (now : Nat) (frame_id : String) : Bool :=
  match dictGet? sess frame_id with
  | some existing => decide (pySeconds ((now : Int) - (existing.timestamp : Int)) < 5)
  | none => false

/-- The metadata dict recorded for a fresh capture. -/
def captureInfo (frame_id : String) (now : Nat) (description : Option String)
    (frame_data : String) : CaptureInfo :=
  { filename := frame_id ++ "_" ++ toString now ++ ".jpg",
    filepath := "captures/" ++ frame_id ++ "_" ++ toString now ++ ".jpg",
    timestamp := now,
    description := description.getD "No description provided",
    status := "captured",
    size_bytes := frame_data.length }

/-- Python `min(d.keys(), key=lambda k: d[k]['timestamp'])` paired with its
entry: first entry with the strictly smallest timestamp. -/
def argminByTs (d : List (String × CaptureInfo)) : Option (String × CaptureInfo) :=
  match d with
  | [] => none
  | x :: xs => some (xs.foldl (fun best q => if q.2.timestamp < best.2.timestamp then q else best) x)

/-- Python `max(d.keys(), key=lambda k: d[k]['timestamp'])` paired with its
entry: first entry with the strictly largest timestamp. -/
def argmaxByTs (d : List (String × CaptureInfo)) : Option (String × CaptureInfo) :=
  match d with
  | [] => none
  | x :: xs => some (xs.foldl (fun best q => if best.2.timestamp < q.2.timestamp then q else best) x)

theorem foldlMin_spec (xs : List (String × CaptureInfo)) :
    ∀ x : String × CaptureInfo,
      (xs.foldl (fun best q => if q.2.timestamp < best.2.timestamp then q else best) x) ∈ x :: xs ∧
      (xs.foldl (fun best q => if q.2.timestamp < best.2.timestamp then q else best) x).2.timestamp ≤ x.2.timestamp ∧
      ∀ q ∈ xs, (xs.foldl (fun best q => if q.2.timestamp < best.2.timestamp then q else best) x).2.timestamp ≤ q.2.timestamp := by
  induction xs with
  | nil => intro x; simp
  | cons y ys ih =>
    intro x
    simp only [List.foldl_cons]
    by_cases h : y.2.timestamp < x.2.timestamp
    · have := ih y
      simp only [h, if_true]
      refine ⟨List.mem_cons_of_mem x this.1, le_trans this.2.1 (le_of_lt h), ?_⟩
      intro q hq
      rcases List.mem_cons.mp hq with h' | h'
      · subst h'; exact this.2.1
      · exact this.2.2 q h'
    · have := ih x
      simp only [h, if_false]
      refine ⟨?_, this.2.1, ?_⟩
      · rcases List.mem_cons.mp this.1 with h' | h'
        · rw [h']; exact List.mem_cons_self x _
        · exact List.mem_cons_of_mem x (List.mem_cons_of_mem y h')
      · intro q hq
        rcases List.mem_cons.mp hq with h' | h'
        · subst h'
          exact le_trans this.2.1 (le_of_not_lt h)
        · exact this.2.2 q h'

theorem argminByTs_spec {d : List (String × CaptureInfo)} (hd : d ≠ []) :
    ∃ p, argminByTs d = some p ∧ p ∈ d ∧ ∀ q ∈ d, p.2.timestamp ≤ q.2.timestamp := by
  cases d with
  | nil => exact absurd rfl hd
  | cons x xs =>
    refine ⟨_, rfl, ?_, ?_⟩
    · exact (foldlMin_spec xs x).1
    · intro q hq
      rcases List.mem_cons.mp hq with h | h
      · rw [h]; exact (foldlMin_spec xs x).2.1
      · exact (foldlMin_spec xs x).2.2 q h

theorem foldlMax_spec (xs : List (String × CaptureInfo)) :
    ∀ x : String × CaptureInfo,
      (xs.foldl (fun best q => if best.2.timestamp < q.2.timestamp then q else best) x) ∈ x :: xs ∧
      x.2.timestamp ≤ (xs.foldl (fun best q => if best.2.timestamp < q.2.timestamp then q else best) x).2.timestamp ∧
      ∀ q ∈ xs, q.2.timestamp ≤ (xs.foldl (fun best q => if best.2.timestamp < q.2.timestamp then q else best) x).2.timestamp := by
  induction xs with
  | nil => intro x; simp
  | cons y ys ih =>
    intro x
    simp only [List.foldl_cons]
    by_cases h : x.2.timestamp < y.2.timestamp
    · have := ih y
      simp only [h, if_true]
      refine ⟨List.mem_cons_of_mem x this.1, le_trans (le_of_lt h) this.2.1, ?_⟩
      intro q hq
      rcases List.mem_cons.mp hq with h' | h'
      · subst h'; exact this.2.1
      · exact this.2.2 q h'
    · have := ih x
      simp only [h, if_false]
      refine ⟨?_, this.2.1, ?_⟩
      · rcases List.mem_cons.mp this.1 with h' | h'
        · rw [h']; exact List.mem_cons_self x _
        · exact List.mem_cons_of_mem x (List.mem_cons_of_mem y h')
      · intro q hq
        rcases List.mem_cons.mp hq with h' | h'
        · subst h'
          exact le_trans (le_of_not_lt h) this.2.1
        · exact this.2.2 q h'

theorem argmaxByTs_spec {d : List (String × CaptureInfo)} (hd : d ≠ []) :
    ∃ p, argmaxByTs d = some p ∧ p ∈ d ∧ ∀ q ∈ d, q.2.timestamp ≤ p.2.timestamp := by
  cases d with
  | nil => exact absurd rfl hd
  | cons x xs =>
    refine ⟨_, rfl, ?_, ?_⟩
    · exact (foldlMax_spec xs x).1
    · intro q hq
      rcases List.mem_cons.mp hq with h | h
      · rw [h]; exact (foldlMax_spec xs x).2.1
      · exact (foldlMax_spec xs x).2.2 q h

/-- Result mapping returned by a tool handler (Python dict with the listed
possible fields; a field is `none` when the handler's dict does not carry
that key). -/
structure ToolResult where
  success : Option Bool := none
  message : Option String := none
  error : Option String := none
  duplicate : Option Bool := none
  frame_id : Option String := none
  filename : Option String := none
  context : Option String := none
  recipient : Option String := none
  subject : Option String := none
  message_id : Option String := none
  attached_image : Option String := none
  attached_frame_id : Option String := none
  total_frames : Option Nat := none
  session_captures : Option Nat := none
deriving DecidableEq

/-- The capture tool (`VisionAssistantTools.capture_and_save_frame`):
checks frame availability, suppresses duplicates younger than 5 seconds in
the session view, decodes and writes the image file, records metadata in
the global archive and the session view, persists the full archive, and
finally evicts the entry with the globally oldest timestamp if the archive
now exceeds `MAX_METADATA_ENTRIES`. -/
def capture_and_save_frame (a : ArchSt) (sess : Sess) (latest_frame : Option String)
    (now : Nat) (frame_id : String) (description : Option String) :
    ArchSt × Sess × ToolResult :=
  if frameTruthy latest_frame = false then
    (a, sess, { success := some false, message := some "No camera frame available to capture" })
  else if dedupHit sess now frame_id then
    (a, sess, { success := some true,
                message := some ("Already captured " ++ frame_id ++ " recently"),
                duplicate := some true })
  else
    let frame_data := latest_frame.getD ""
    let info := captureInfo frame_id now description frame_data
    let files1 := dictInsert a.files info.filepath frame_data
    let cf1 := dictInsert a.captured_frames frame_id info
    let sess1 := dictInsert sess frame_id info
    let a1 := save_metadata { a with captured_frames := cf1, files := files1 }
    let a2 :=
      if MAX_METADATA_ENTRIES < cf1.length then
        match argminByTs cf1 with
        | some p => { a1 with captured_frames := dictErase cf1 p.1 }
        | none => a1
      else a1
    (a2, sess1, { success := some true, frame_id := some frame_id,
                  filename := some info.filename,
                  message := some ("Frame captured successfully as " ++ info.filename) })

/-- Per-connection monitoring state (`SessionState`). -/
structure SessionStateM where
  continuous_mode : Bool
  monitoring_context : Option String
  last_notification_time : Nat
deriving DecidableEq

def DEFAULT_EMAIL : String := "snehanshu.usc@gmail.com"

/-- Environment for the email dispatcher.  The Gmail credential dance
(secrets or local files, token refresh) is abstracted into `credsOk`:
whether, after it, valid credentials are in hand; `sendOk` is whether the
provider's send call succeeds; `message_id` is the provider's id for a
successful send. -/
structure EmailEnv where
  credsOk : Bool
  sendOk : Bool
  message_id : String
deriving DecidableEq

/-- Python `Path(p).name`: the final path component. -/
def pathName (s : String) : String :=
  (s.splitOn "/").getLastD ""

/-- Recipient aliases that resolve to the default address. -/
def recipAliases : List String := ["me", "myself", "my email"]

/-- Attachment aliases that resolve to the most recent capture. -/
def attachAliases : List String := ["current", "latest", "last", "this", "that"]

/-- Recipient resolution at the top of `send_email`: `None`, the empty
string, or a case-insensitive alias becomes the default address. -/
def resolveRecipient (recipient : Option String) : String :=
  match recipient with
  | none => DEFAULT_EMAIL
  | some r => if r = "" ∨ pyLower r ∈ recipAliases then DEFAULT_EMAIL else r

/-- Attachment resolution of `send_email`: returns the chosen image path
and the attached frame id.  An alias resolves to the most recent
session-view entry, falling back to the most recent global entry, falling
back to no attachment; a literal id is looked up in the global archive and
silently ignored when absent. -/
def resolveAttachment (a : ArchSt) (sess : Sess) (attach_frame_id : Option String) :
    Option String × Option String :=
  match attach_frame_id with
  | none => (none, none)
  | some aid =>
    if aid = "" then (none, none)
    else if pyLower aid ∈ attachAliases then
      match argmaxByTs sess with
      | some p => (some p.2.filepath, some p.1)
      | none =>
        match argmaxByTs a.captured_frames with
        | some p => (some p.2.filepath, some p.1)
        | none => (none, none)
    else
      match dictGet? a.captured_frames aid with
      | some info => (some info.filepath, some aid)
      | none => (none, none)

/-- The email tool (`VisionAssistantTools.send_email`): resolves the
recipient, authenticates, resolves the attachment, drops the attachment if
the resolved file no longer exists on disk, and sends. -/
def send_email (env : EmailEnv) (a : ArchSt) (sess : Sess) (recipient : Option String)
    (subject : String) (body : String) (attach_frame_id : Option String) : ToolResult :=
  let rcpt := resolveRecipient recipient
  if env.credsOk = false then
    { success := some false,
      message := some "Unable to authenticate with Gmail. Please check credentials." }
  else
    let resolved := resolveAttachment a sess attach_frame_id
    let image_path :=
      match resolved.1 with
      | some p => if dictContains a.files p then some p else none
      | none => none
    if env.sendOk = false then
      { success := some false, message := some "Failed to send email: HttpError" }
    else
      { success := some true,
        recipient := some rcpt,
        subject := some subject,
        message_id := some env.message_id,
        attached_image := image_path.map pathName,
        attached_frame_id := resolved.2,
        message := some ("Email sent to " ++ rcpt ++
          (match resolved.2 with
           | some af => " with attachment " ++ af
           | none => " (no attachment)")) }

/-- The canonical result of `disable_continuous_monitoring`. -/
def disableResult : ToolResult :=
  { success := some true, message := some "Continuous monitoring disabled" }

/-- Enable monitoring: sets the mode flag and context, idempotently. -/
def enable_continuous_monitoring (ss : SessionStateM) (looking_for : Option String) :
    SessionStateM × ToolResult :=
  ({ ss with continuous_mode := true, monitoring_context := looking_for },
   { success := some true,
     message := some ("Continuous monitoring enabled" ++
       (match looking_for with
        | some l => if l = "" then "" else " - Looking for: " ++ l
        | none => "")),
     context := looking_for })

/-- Disable monitoring: clears the mode flag and context, idempotently. -/
def disable_continuous_monitoring (ss : SessionStateM) : SessionStateM × ToolResult :=
  ({ ss with continuous_mode := false, monitoring_context := none }, disableResult)

/-- List all captures in the global archive (read-only). -/
def list_captured_frames (a : ArchSt) : ToolResult :=
  { success := some true, total_frames := some a.captured_frames.length }

/-- Session-scoped summary (read-only). -/
def get_session_summary (sess : Sess) : ToolResult :=
  { success := some true, session_captures := some sess.length }

/-- Delete a capture: not-found is a reported failure; otherwise remove
the file (tolerant of a pre-removed file), the archive entry, the session
view entry, and persist. -/
def delete_frame (a : ArchSt) (sess : Sess) (frame_id : String) : ArchSt × Sess × ToolResult :=
  match dictGet? a.captured_frames frame_id with
  | none => (a, sess, { success := some false,
                        message := some ("Frame " ++ frame_id ++ " not found") })
  | some info =>
    let files1 := dictErase a.files info.filepath
    let cf1 := dictErase a.captured_frames frame_id
    let sess1 := dictErase sess frame_id
    let a1 := save_metadata { a with captured_frames := cf1, files := files1 }
    (a1, sess1, { success := some true, message := some ("Frame " ++ frame_id ++ " deleted") })

/-- Graceful shutdown tool: persists the archive and reports a summary. -/
def shutdown_session (a : ArchSt) : ArchSt × ToolResult :=
  (save_metadata a,
   { success := some true, message := some "Session ended successfully" })

/-- All connection-local and process-wide state the tool executor and the
outbound relay operate on. -/
structure CoordState where
  arch : ArchSt
  sess : Sess
  sstate : SessionStateM
  latest_frame : Option String
  current_text : String
  should_shutdown : Bool
  websocket_open : Bool
  now : Nat
deriving DecidableEq

/-- Keyword-argument signature of each registered tool: required and
optional parameter names, from the handler definitions. `none` for an
unregistered name. -/
def toolSig? (name : String) : Option (List String × List String) :=
  if name = "capture_and_save_frame" then some (["frame_id"], ["description"])
  else if name = "enable_continuous_monitoring" then some ([], ["looking_for"])
  else if name = "disable_continuous_monitoring" then some ([], [])
  else if name = "send_email" then some ([], ["recipient", "subject", "body", "attach_frame_id"])
  else if name = "list_captured_frames" then some ([], [])
  else if name = "get_session_summary" then some ([], [])
  else if name = "delete_frame" then some (["frame_id"], [])
  else if name = "shutdown_session" then some ([], [])
  else none

/-- Python keyword-argument binding check for `handler(**arguments)`:
every required parameter is supplied and every supplied key names a
parameter.  When it fails, the call raises `TypeError`. -/
def bindOk (sig : List String × List String) (args : List (String × String)) : Bool :=
  sig.1.all (fun r => dictContains args r) &&
  args.all (fun p => sig.1.contains p.1 || sig.2.contains p.1)

/-- Dispatch to the selected handler with bound keyword arguments.  Every
handler is total: each either cannot fail or catches its own failures and
returns a `success := false` result. -/
def runTool (env : EmailEnv) (st : CoordState) (name : String)
    (args : List (String × String)) : CoordState × ToolResult :=
  if name = "capture_and_save_frame" then
    let out := capture_and_save_frame st.arch st.sess st.latest_frame st.now
      ((dictGet? args "frame_id").getD "") (dictGet? args "description")
    ({ st with arch := out.1, sess := out.2.1 }, out.2.2)
  else if name = "enable_continuous_monitoring" then
    let out := enable_continuous_monitoring st.sstate (dictGet? args "looking_for")
    ({ st with sstate := out.1 }, out.2)
  else if name = "disable_continuous_monitoring" then
    let out := disable_continuous_monitoring st.sstate
    ({ st with sstate := out.1 }, out.2)
  else if name = "send_email" then
    (st, send_email env st.arch st.sess (dictGet? args "recipient")
      ((dictGet? args "subject").getD "Vision Assistant Capture")
      ((dictGet? args "body").getD "Here\x27s the image you requested.")
      (dictGet? args "attach_frame_id"))
  else if name = "list_captured_frames" then
    (st, list_captured_frames st.arch)
  else if name = "get_session_summary" then
    (st, get_session_summary st.sess)
  else if name = "delete_frame" then
    let out := delete_frame st.arch st.sess ((dictGet? args "frame_id").getD "")
    ({ st with arch := out.1, sess := out.2.1 }, out.2.2)
  else if name = "shutdown_session" then
    let out := shutdown_session st.arch
    ({ st with arch := out.1 }, out.2)
  else
    (st, { error := some ("Unknown tool: " ++ name) })

/-- The tool executor (`execute_tool`): an unknown name returns a
non-fatal `error` result; a registered name has `arguments` unpacked as
keyword arguments into the handler, which raises `TypeError` (modelled as
`.error`) when the mapping does not bind. -/
def execute_tool (env : EmailEnv) (st : CoordState) (name : String)
    (args : List (String × String)) : Except String (CoordState × ToolResult) :=
  match toolSig? name with
  | none => .ok (st, { error := some ("Unknown tool: " ++ name) })
  | some sig =>
    if bindOk sig args then .ok (runTool env st name args)
    else .error ("TypeError: invalid arguments for " ++ name)

/-- One upstream function call inside a tool-call response event. -/
structure FunctionCallMsg where
  id : String
  name : String
  args : List (String × String)
deriving DecidableEq

/-- One upstream response event: optional text part, optional tool-call
part, optional audio bytes (kept abstract as a string), and the
turn-complete marker of `server_content`. -/
structure ResponseMsg where
  text : Option String
  tool_call : Option (List FunctionCallMsg)
  data : Option String
  turn_complete : Bool
deriving DecidableEq

/-- Messages the relay sends to the client over the websocket. -/
inductive ClientEvent where
  | status (message : String)
  | toolExecuted (tool : String) (result : ToolResult)
  | monitoringEnabled (context : Option String)
  | monitoringDisabled
  | itemFound (item : Option String)
  | audio (data : String)
deriving DecidableEq

/-- Is an event an `item_found` notification? -/
def isItemFoundEv : ClientEvent → Bool
  | .itemFound _ => true
  | _ => false

/-- The text-accumulation and found-marker handling at the top of the
outbound relay loop: lowercased text is appended to the accumulator; if
monitoring is active and the accumulator contains the marker, monitoring
is force-disabled, three client events are emitted (the disable tool
result, `monitoring_disabled`, and `item_found` with the pre-disable
context), and the accumulator is reset. -/
def textStep (st : CoordState) (txt : Option String) : CoordState × List ClientEvent :=
  match txt with
  | none => (st, [])
  | some t =>
    if t = "" then (st, [])
    else
      let ct := st.current_text ++ pyLower t
      if st.sstate.continuous_mode && (strContains ct "found" || strContains ct "FOUND") then
        let old := st.sstate.monitoring_context
        let out := disable_continuous_monitoring st.sstate
        ({ st with sstate := out.1, current_text := "" },
         [ClientEvent.toolExecuted "disable_continuous_monitoring" out.2,
          ClientEvent.monitoringDisabled,
          ClientEvent.itemFound old])
      else ({ st with current_text := ct }, [])

/-- The per-call loop of the tool-call branch: execute each call, set the
shutdown flag on a successful `shutdown_session`, emit the
`tool_executed` notification (plus the monitoring enable/disable
follow-up events), and collect the function responses.  A raised
`TypeError` (bad argument binding) aborts the loop: the remaining calls
are skipped and the collected function responses are never sent (last
component `true`). -/
def processCalls (env : EmailEnv) (st : CoordState) :
    List FunctionCallMsg →
    CoordState × List ClientEvent × List (String × String × ToolResult) × Bool
  | [] => (st, [], [], false)
  | c :: rest =>
    match execute_tool env st c.name c.args with
    | .error _ => (st, [], [], true)
    | .ok out =>
      let st2 :=
        if c.name = "shutdown_session" ∧ out.2.success = some true then
          { out.1 with should_shutdown := true }
        else out.1
      let evs :=
        ClientEvent.toolExecuted c.name out.2 ::
        (if c.name = "enable_continuous_monitoring" then
           [ClientEvent.monitoringEnabled (dictGet? c.args "looking_for")]
         else if c.name = "disable_continuous_monitoring" then
           [ClientEvent.monitoringDisabled]
         else [])
      let tail := processCalls env st2 rest
      (tail.1, evs ++ tail.2.1, (c.id, c.name, out.2) :: tail.2.2.1, tail.2.2.2)

/-- The tail of one response's handling: forward audio, reset the text
accumulator on a turn-complete marker, and, if the shutdown flag is set,
stop the relay (the `CancelledError` raised in the source), closing the
socket. -/
def tailStep (st : CoordState) (evs : List ClientEvent)
    (frs : List (String × String × ToolResult)) (r : ResponseMsg) :
    CoordState × List ClientEvent × List (String × String × ToolResult) × Bool :=
  let evsA := evs ++
    (match r.data with
     | some d => if d = "" then [] else [ClientEvent.audio d]
     | none => [])
  let st2 := if r.turn_complete then { st with current_text := "" } else st
  if st2.should_shutdown then
    ({ st2 with websocket_open := false }, evsA, frs, true)
  else (st2, evsA, frs, false)

/-- Handling of one upstream response event by the outbound relay
(`receive_from_gemini`), returning the new state, the client events sent,
the function responses sent back upstream, and whether the relay stops
consuming further events. -/
def processResponse (env : EmailEnv) (st : CoordState) (r : ResponseMsg) :
    CoordState × List ClientEvent × List (String × String × ToolResult) × Bool :=
  if st.websocket_open = false then (st, [], [], true)
  else
    let t := textStep st r.text
    match r.tool_call with
    | some calls =>
      let pc := processCalls env t.1 calls
      if pc.2.2.2 then
        (pc.1, t.2 ++ pc.2.1, [], false)
      else
        tailStep pc.1 (t.2 ++ pc.2.1) pc.2.2.1 r
    | none => tailStep t.1 t.2 [] r

/-- The outbound relay loop over a scripted list of upstream responses:
processes responses in order until one halts the loop, returning the
final state, all client events, and how many responses were processed. -/
def runRelay (env : EmailEnv) (st : CoordState) :
    List ResponseMsg → CoordState × List ClientEvent × Nat
  | [] => (st, [], 0)
  | r :: rest =>
    let out := processResponse env st r
    if out.2.2.2 then (out.1, out.2.1, 1)
    else
      let tail := runRelay env out.1 rest
      (tail.1, out.2.1 ++ tail.2.1, tail.2.2 + 1)

/-- The whole coordinator path for a scripted upstream stream: run the
outbound relay, then the unconditional cleanup of the websocket handler's
`finally` block (mark the socket closed, persist the archive once more,
drop the frame buffer). -/
def runCoordinator (env : EmailEnv) (st : CoordState) (rs : List ResponseMsg) :
    CoordState × List ClientEvent × Nat :=
  let out := runRelay env st rs
  let stf := out.1
  let cleaned : CoordState :=
    { stf with websocket_open := false, arch := save_metadata stf.arch, latest_frame := none }
  (cleaned, out.2.1, out.2.2)

/-- Shared state read by one wake-up of the monitoring injector: the
clock, the monitoring flag, and the frame buffer contents. -/
structure TickInput where
  now : Nat
  continuous_mode : Bool
  frame : Option String
deriving DecidableEq

/-- One wake-up of `continuous_monitor`: when monitoring is active, a
frame is present, and the integer `timedelta.seconds` since the last
notification is at least `0.5`, a monitoring prompt is injected upstream
and `last_notification_time` is updated.  The source's
`time_since_last >= 0.5` compares an integer with one half; it is
rendered here as the equivalent integer comparison `1 ≤ 2 * seconds`.
Returns the new `last_notification_time` and whether an injection was
sent. -/
def monitorTick (last : Nat) (i : TickInput) : Nat × Bool :=
  if i.continuous_mode && frameTruthy i.frame then
    if 1 ≤ 2 * pySeconds ((i.now : Int) - (last : Int)) then (i.now, true)
    else (last, false)
  else (last, false)

/-- A run of the monitoring injector over a list of wake-ups: final
`last_notification_time` and the times of the injections sent. -/
def runMonitor (last : Nat) : List TickInput → Nat × List Nat
  | [] => (last, [])
  | i :: rest =>
    let t := monitorTick last i
    let tail := runMonitor t.1 rest
    (tail.1, (if t.2 then [i.now] else []) ++ tail.2)

/-- A benign environment: valid credentials, sends succeed. -/
def defaultEnv : EmailEnv := { credsOk := true, sendOk := true, message_id := "mid-1" }

/-- The empty archive (fresh start, no metadata file). -/
def arch0 : ArchSt := { captured_frames := [], disk := [], files := [], persistCount := 0 }

/-- Session state at connection accept. -/
def sstate0 : SessionStateM :=
  { continuous_mode := false, monitoring_context := none, last_notification_time := 0 }

/-- Coordinator state at connection accept over an empty archive. -/
def initState : CoordState :=
  { arch := arch0, sess := [], sstate := sstate0, latest_frame := none,
    current_text := "", should_shutdown := false, websocket_open := true, now := 0 }

/-- Three-digit decimal key used to build large concrete archives. -/
def mkKey (i : Nat) : String :=
  String.mk [Char.ofNat (48 + i / 100), Char.ofNat (48 + (i / 10) % 10), Char.ofNat (48 + i % 10)]

/-- Concrete capture entry with timestamp `i`. -/
def mkInfo (i : Nat) : CaptureInfo :=
  { filename := mkKey i ++ ".jpg", filepath := "captures/" ++ mkKey i ++ ".jpg",
    timestamp := i, description := "d", status := "captured", size_bytes := 1 }

/-- A concrete archive dict with `n` entries, timestamps `0, …, n-1`. -/
def bigArch (n : Nat) : List (String × CaptureInfo) :=
  (List.range n).map (fun i => (mkKey i, mkInfo i))

/-- Archive state holding exactly 100 entries. -/
def arch100 : ArchSt :=
  { captured_frames := bigArch 100, disk := bigArch 100, files := [], persistCount := 0 }

/-- Archive state holding 101 entries, as produced by loading a metadata
document that was persisted right before an eviction. -/
def arch101 : ArchSt :=
  { captured_frames := bigArch 101, disk := bigArch 101, files := [], persistCount := 0 }

theorem capture_dup_eq (a : ArchSt) (sess : Sess) (f : Option String) (now : Nat)
    (fid : String) (desc : Option String)
    (hf : frameTruthy f = true) (hd : dedupHit sess now fid = true) :
    capture_and_save_frame a sess f now fid desc =
      (a, sess, { success := some true,
                  message := some ("Already captured " ++ fid ++ " recently"),
                  duplicate := some true }) := by
  unfold capture_and_save_frame
  rw [hf, hd]
  simp

theorem capture_write_sess (a : ArchSt) (sess : Sess) (f : Option String) (now : Nat)
    (fid : String) (desc : Option String)
    (hf : frameTruthy f = true) (hd : dedupHit sess now fid = false) :
    (capture_and_save_frame a sess f now fid desc).2.1 =
      dictInsert sess fid (captureInfo fid now desc (f.getD "")) := by
  unfold capture_and_save_frame
  rw [hf, hd]
  simp

theorem capture_write_result (a : ArchSt) (sess : Sess) (f : Option String) (now : Nat)
    (fid : String) (desc : Option String)
    (hf : frameTruthy f = true) (hd : dedupHit sess now fid = false) :
    (capture_and_save_frame a sess f now fid desc).2.2 =
      { success := some true, frame_id := some fid,
        filename := some (captureInfo fid now desc (f.getD "")).filename,
        message := some ("Frame captured successfully as " ++
          (captureInfo fid now desc (f.getD "")).filename) } := by
  unfold capture_and_save_frame
  rw [hf, hd]
  simp

theorem capture_write_arch (a : ArchSt) (sess : Sess) (f : Option String) (now : Nat)
    (fid : String) (desc : Option String)
    (hf : frameTruthy f = true) (hd : dedupHit sess now fid = false) :
    (capture_and_save_frame a sess f now fid desc).1 =
      (if MAX_METADATA_ENTRIES <
            (dictInsert a.captured_frames fid (captureInfo fid now desc (f.getD ""))).length then
         match argminByTs (dictInsert a.captured_frames fid (captureInfo fid now desc (f.getD ""))) with
         | some p =>
           { captured_frames :=
               dictErase (dictInsert a.captured_frames fid (captureInfo fid now desc (f.getD ""))) p.1,
             disk := dictInsert a.captured_frames fid (captureInfo fid now desc (f.getD "")),
             files := dictInsert a.files (captureInfo fid now desc (f.getD "")).filepath (f.getD ""),
             persistCount := a.persistCount + 1 }
         | none =>
           { captured_frames := dictInsert a.captured_frames fid (captureInfo fid now desc (f.getD "")),
             disk := dictInsert a.captured_frames fid (captureInfo fid now desc (f.getD "")),
             files := dictInsert a.files (captureInfo fid now desc (f.getD "")).filepath (f.getD ""),
             persistCount := a.persistCount + 1 }
       else
         { captured_frames := dictInsert a.captured_frames fid (captureInfo fid now desc (f.getD "")),
           disk := dictInsert a.captured_frames fid (captureInfo fid now desc (f.getD "")),
           files := dictInsert a.files (captureInfo fid now desc (f.getD "")).filepath (f.getD ""),
           persistCount := a.persistCount + 1 }) := by
  unfold capture_and_save_frame
  rw [hf, hd]
  rfl

/-- C1 — as frozen, the claim fails: the 5-second duplicate-suppression
window is checked against the per-connection session view, not the global
archive, so the same `frame_id` captured from a second session 2 seconds
later is written again and the archive metadata entry changes.  Concrete
refutation: session A captures "x" at t=0; session B (empty session view)
captures "x" at t=2; the second call is not marked duplicate, reports a
plain success, overwrites the archive entry, and writes a second file. -/
theorem c1_counterexample_cross_session :
    (capture_and_save_frame
        (capture_and_save_frame arch0 [] (some "imgA") 0 "x" none).1
        [] (some "imgB") 2 "x" none).2.2.duplicate = none ∧
    (capture_and_save_frame
        (capture_and_save_frame arch0 [] (some "imgA") 0 "x" none).1
        [] (some "imgB") 2 "x" none).2.2.success = some true ∧
    (capture_and_save_frame
        (capture_and_save_frame arch0 [] (some "imgA") 0 "x" none).1
        [] (some "imgB") 2 "x" none).1.captured_frames ≠
      (capture_and_save_frame arch0 [] (some "imgA") 0 "x" none).1.captured_frames ∧
    (capture_and_save_frame
        (capture_and_save_frame arch0 [] (some "imgA") 0 "x" none).1
        [] (some "imgB") 2 "x" none).1.files.length = 2 := by
  refine ⟨rfl, rfl, ?_, rfl⟩
  decide

/-- C1 (amended to the same session) — two capture requests from the same
session with the same `frame_id`, a frame available for both, the first
completing a write and the second arriving within 5 seconds: the second
call returns a duplicate-marked success and changes nothing — the whole
archive state (stored file bytes, archive metadata, persisted metadata,
persist count) and the session view are returned unchanged. -/
theorem c1_duplicate_suppression_same_session
    (a : ArchSt) (sess : Sess) (f1 f2 : Option String) (t1 t2 : Nat)
    (fid : String) (d1 d2 : Option String)
    (hf1 : frameTruthy f1 = true) (hf2 : frameTruthy f2 = true)
    (hd1 : dedupHit sess t1 fid = false)
    (hle : t1 ≤ t2) (hlt : t2 < t1 + 5) :
    capture_and_save_frame (capture_and_save_frame a sess f1 t1 fid d1).1
        (capture_and_save_frame a sess f1 t1 fid d1).2.1 f2 t2 fid d2 =
      ((capture_and_save_frame a sess f1 t1 fid d1).1,
       (capture_and_save_frame a sess f1 t1 fid d1).2.1,
       { success := some true,
         message := some ("Already captured " ++ fid ++ " recently"),
         duplicate := some true }) := by
  have hsess : (capture_and_save_frame a sess f1 t1 fid d1).2.1 =
      dictInsert sess fid (captureInfo fid t1 d1 (f1.getD "")) :=
    capture_write_sess a sess f1 t1 fid d1 hf1 hd1
  have hget : dictGet? (dictInsert sess fid (captureInfo fid t1 d1 (f1.getD ""))) fid =
      some (captureInfo fid t1 d1 (f1.getD "")) :=
    dictGet?_dictInsert_self sess fid _
  have hmod : pySeconds ((t2 : Int) - (t1 : Int)) < 5 := by
    unfold pySeconds
    omega
  have hdup : dedupHit (capture_and_save_frame a sess f1 t1 fid d1).2.1 t2 fid = true := by
    rw [hsess]
    unfold dedupHit
    rw [hget]
    exact decide_eq_true hmod
  exact capture_dup_eq _ _ f2 t2 fid d2 hf2 hdup

/-- C1 witness: the amended theorem applied at a concrete same-session
pair of captures of "x" at t=0 and t=2. -/
theorem c1_duplicate_suppression_witness :
    capture_and_save_frame (capture_and_save_frame arch0 [] (some "imgA") 0 "x" none).1
        (capture_and_save_frame arch0 [] (some "imgA") 0 "x" none).2.1 (some "imgB") 2 "x" none =
      ((capture_and_save_frame arch0 [] (some "imgA") 0 "x" none).1,
       (capture_and_save_frame arch0 [] (some "imgA") 0 "x" none).2.1,
       { success := some true,
         message := some ("Already captured " ++ "x" ++ " recently"),
         duplicate := some true }) :=
  c1_duplicate_suppression_same_session arch0 [] (some "imgA") (some "imgB") 0 2 "x" none none
    (by decide) (by decide) (by decide) (by decide) (by decide)

/-- C2 — as frozen, the claim fails on its "the archive size is at most
100 again" part: the code evicts only one entry per capture, and the
program itself persists 101-entry metadata documents (persist happens
before eviction), which `load_metadata` then loads at startup.  Concrete
refutation: starting from a loaded 101-entry archive, a capture of a
fresh id completes a write, leaves 102 entries, evicts one — and the
archive still holds 101 entries, more than 100. -/
theorem c2_counterexample_archive_stays_over_100 :
    (capture_and_save_frame arch101 [] (some "img") 1000 "newkey" none).2.2.success = some true ∧
    (capture_and_save_frame arch101 [] (some "img") 1000 "newkey" none).2.2.duplicate = none ∧
    MAX_METADATA_ENTRIES <
      (capture_and_save_frame arch101 [] (some "img") 1000 "newkey" none).1.captured_frames.length := by
  refine ⟨rfl, rfl, ?_⟩
  decide

/-- C2 (amended) — after any capture that completes a write and leaves
the archive with more than 100 entries, exactly one entry whose timestamp
is globally minimal is evicted and every other entry survives; the size
drops by exactly one, and is at most 100 again whenever the archive held
at most 100 entries before the call. -/
theorem c2_eviction_globally_oldest
    (a : ArchSt) (sess : Sess) (f : Option String) (t : Nat)
    (fid : String) (desc : Option String)
    (inserted : List (String × CaptureInfo))
    (hf : frameTruthy f = true)
    (hd : dedupHit sess t fid = false)
    (hnd : keysNodup a.captured_frames)
    (hins : inserted = dictInsert a.captured_frames fid (captureInfo fid t desc (f.getD "")))
    (hover : MAX_METADATA_ENTRIES < inserted.length) :
    ∃ p, argminByTs inserted = some p ∧
      (capture_and_save_frame a sess f t fid desc).1.captured_frames = dictErase inserted p.1 ∧
      p ∈ inserted ∧
      (∀ q ∈ inserted, p.2.timestamp ≤ q.2.timestamp) ∧
      (capture_and_save_frame a sess f t fid desc).1.captured_frames.length + 1 = inserted.length ∧
      (∀ q ∈ inserted, q.1 ≠ p.1 →
        q ∈ (capture_and_save_frame a sess f t fid desc).1.captured_frames) ∧
      (a.captured_frames.length ≤ MAX_METADATA_ENTRIES →
        (capture_and_save_frame a sess f t fid desc).1.captured_frames.length ≤
          MAX_METADATA_ENTRIES) := by
  have hne : inserted ≠ [] := by
    intro h
    rw [h] at hover
    simp [MAX_METADATA_ENTRIES] at hover
  obtain ⟨p, hmin, hmem, hle⟩ := argminByTs_spec hne
  have hndins : keysNodup inserted := by
    rw [hins]
    exact keysNodup_dictInsert fid _ hnd
  have hgetp : dictGet? inserted p.1 = some p.2 := by
    have := dictGet?_of_mem hndins (by simpa using hmem)
    simpa using this
  have harch : (capture_and_save_frame a sess f t fid desc).1.captured_frames =
      dictErase inserted p.1 := by
    rw [capture_write_arch a sess f t fid desc hf hd, ← hins]
    rw [if_pos hover, hmin]
  have hlen : (dictErase inserted p.1).length + 1 = inserted.length :=
    length_dictErase_of_get?_some inserted p.1 p.2 hgetp
  refine ⟨p, hmin, harch, hmem, hle, ?_, ?_, ?_⟩
  · rw [harch]; exact hlen
  · intro q hq hqp
    rw [harch]
    exact mem_dictErase_of_ne hq hqp
  · intro hcap
    have hinslen : inserted.length ≤ a.captured_frames.length + 1 := by
      rw [hins]
      exact length_dictInsert_le a.captured_frames fid _
    rw [harch]
    omega

/-- C2 witness: the amended theorem applied to a concrete 100-entry
archive plus a fresh capture, which triggers the eviction. -/
theorem c2_eviction_witness :
    ∃ p, argminByTs (dictInsert arch100.captured_frames "newkey"
          (captureInfo "newkey" 1000 none ((some "img" : Option String).getD ""))) = some p ∧
      (capture_and_save_frame arch100 [] (some "img") 1000 "newkey" none).1.captured_frames =
        dictErase (dictInsert arch100.captured_frames "newkey"
          (captureInfo "newkey" 1000 none ((some "img" : Option String).getD ""))) p.1 ∧
      p ∈ dictInsert arch100.captured_frames "newkey"
          (captureInfo "newkey" 1000 none ((some "img" : Option String).getD "")) ∧
      (∀ q ∈ dictInsert arch100.captured_frames "newkey"
          (captureInfo "newkey" 1000 none ((some "img" : Option String).getD "")),
        p.2.timestamp ≤ q.2.timestamp) ∧
      (capture_and_save_frame arch100 [] (some "img") 1000 "newkey" none).1.captured_frames.length + 1 =
        (dictInsert arch100.captured_frames "newkey"
          (captureInfo "newkey" 1000 none ((some "img" : Option String).getD ""))).length ∧
      (∀ q ∈ dictInsert arch100.captured_frames "newkey"
          (captureInfo "newkey" 1000 none ((some "img" : Option String).getD "")),
        q.1 ≠ p.1 →
        q ∈ (capture_and_save_frame arch100 [] (some "img") 1000 "newkey" none).1.captured_frames) ∧
      (arch100.captured_frames.length ≤ MAX_METADATA_ENTRIES →
        (capture_and_save_frame arch100 [] (some "img") 1000 "newkey" none).1.captured_frames.length ≤
          MAX_METADATA_ENTRIES) :=
  c2_eviction_globally_oldest arch100 [] (some "img") 1000 "newkey" none _
    (by decide) (by decide) (by decide) rfl (by decide)

/-- C10 — within a single writing capture call that triggers eviction,
the archive is persisted before the eviction and never afterwards: the
call performs exactly one persist, the persisted document equals the
archive with the new entry but before eviction, so it still contains the
evicted entry and holds exactly one entry more than the in-memory archive
(101 entries when the archive held 100). -/
theorem c10_persist_precedes_eviction
    (a : ArchSt) (sess : Sess) (f : Option String) (t : Nat)
    (fid : String) (desc : Option String)
    (inserted : List (String × CaptureInfo))
    (hf : frameTruthy f = true)
    (hd : dedupHit sess t fid = false)
    (hnd : keysNodup a.captured_frames)
    (hins : inserted = dictInsert a.captured_frames fid (captureInfo fid t desc (f.getD "")))
    (hover : MAX_METADATA_ENTRIES < inserted.length) :
    ∃ p, argminByTs inserted = some p ∧
      (capture_and_save_frame a sess f t fid desc).1.disk = inserted ∧
      (capture_and_save_frame a sess f t fid desc).1.persistCount = a.persistCount + 1 ∧
      dictGet? (capture_and_save_frame a sess f t fid desc).1.disk p.1 = some p.2 ∧
      dictGet? (capture_and_save_frame a sess f t fid desc).1.captured_frames p.1 = none ∧
      (capture_and_save_frame a sess f t fid desc).1.disk.length =
        (capture_and_save_frame a sess f t fid desc).1.captured_frames.length + 1 := by
  have hne : inserted ≠ [] := by
    intro h
    rw [h] at hover
    simp [MAX_METADATA_ENTRIES] at hover
  obtain ⟨p, hmin, hmem, _⟩ := argminByTs_spec hne
  have hndins : keysNodup inserted := by
    rw [hins]
    exact keysNodup_dictInsert fid _ hnd
  have hgetp : dictGet? inserted p.1 = some p.2 := by
    have := dictGet?_of_mem hndins (by simpa using hmem)
    simpa using this
  have harchfull := capture_write_arch a sess f t fid desc hf hd
  rw [← hins] at harchfull
  rw [if_pos hover, hmin] at harchfull
  have hdisk : (capture_and_save_frame a sess f t fid desc).1.disk = inserted := by
    rw [harchfull]
  have harch : (capture_and_save_frame a sess f t fid desc).1.captured_frames =
      dictErase inserted p.1 := by
    rw [harchfull]
  refine ⟨p, hmin, hdisk, ?_, ?_, ?_, ?_⟩
  · rw [harchfull]
  · rw [hdisk]; exact hgetp
  · rw [harch]
    exact dictGet?_dictErase_self hndins
  · rw [hdisk, harch]
    have := length_dictErase_of_get?_some inserted p.1 p.2 hgetp
    omega

/-- C10 witness: the theorem applied to the concrete 100-entry archive
plus a fresh capture; the persisted document keeps 101 entries including
the evicted one. -/
theorem c10_persist_precedes_eviction_witness :
    ∃ p, argminByTs (dictInsert arch100.captured_frames "newkey"
          (captureInfo "newkey" 1000 none ((some "img" : Option String).getD ""))) = some p ∧
      (capture_and_save_frame arch100 [] (some "img") 1000 "newkey" none).1.disk =
        dictInsert arch100.captured_frames "newkey"
          (captureInfo "newkey" 1000 none ((some "img" : Option String).getD "")) ∧
      (capture_and_save_frame arch100 [] (some "img") 1000 "newkey" none).1.persistCount =
        arch100.persistCount + 1 ∧
      dictGet? (capture_and_save_frame arch100 [] (some "img") 1000 "newkey" none).1.disk p.1 =
        some p.2 ∧
      dictGet? (capture_and_save_frame arch100 [] (some "img") 1000 "newkey" none).1.captured_frames
        p.1 = none ∧
      (capture_and_save_frame arch100 [] (some "img") 1000 "newkey" none).1.disk.length =
        (capture_and_save_frame arch100 [] (some "img") 1000 "newkey" none).1.captured_frames.length + 1 :=
  c10_persist_precedes_eviction arch100 [] (some "img") 1000 "newkey" none _
    (by decide) (by decide) (by decide) rfl (by decide)

/-- Is an `Except` value a success? -/
def isOkE {ε α : Type} : Except ε α → Bool
  | .ok _ => true
  | .error _ => false

/-- C3 — as frozen, the claim fails: `execute_tool` has no try/except of
its own and unpacks the argument mapping with `**arguments`, so a mapping
that does not match the handler's parameters raises a `TypeError` out of
`execute_tool` (it is the relay's per-response handler that catches it,
with no `success=false` result produced).  Concrete refutation: a
registered tool called with an unexpected keyword argument raises. -/
theorem c3_counterexample_bad_binding_raises :
    execute_tool defaultEnv initState "shutdown_session" [("bogus", "1")] =
      .error "TypeError: invalid arguments for shutdown_session" := by
  rfl

/-- C3 (amended to argument mappings that bind) — for every registered
tool name and every argument mapping matching the handler's parameters,
`execute_tool` returns a result value and propagates no exception: every
handler is total, each either cannot fail or catches its own failures and
reports `success=false`. -/
theorem c3_no_exception_on_bound_args (env : EmailEnv) (st : CoordState)
    (name : String) (args : List (String × String))
    (sig : List String × List String)
    (hsig : toolSig? name = some sig) (hbind : bindOk sig args = true) :
    isOkE (execute_tool env st name args) = true := by
  simp [execute_tool, hsig, hbind, isOkE]

/-- C3 witness: a registered call with a well-bound argument mapping. -/
theorem c3_no_exception_witness :
    isOkE (execute_tool defaultEnv initState "list_captured_frames" []) = true :=
  c3_no_exception_on_bound_args defaultEnv initState "list_captured_frames" []
    ([], []) (by decide) (by decide)

/-- C4 — as frozen, the claim fails on its second part: an unknown tool
name does return a non-fatal result surfaced to the caller, but that
result is the bare dict `{"error": "Unknown tool: …"}` — it has neither a
boolean `success` field nor a `message` field, unlike every other tool
result.  Concrete refutation at the unregistered name "make_coffee". -/
theorem c4_counterexample_unknown_tool_result_shape :
    execute_tool defaultEnv initState "make_coffee" [] =
      .ok (initState, { error := some "Unknown tool: make_coffee" }) ∧
    ({ error := some "Unknown tool: make_coffee" } : ToolResult).success = none ∧
    ({ error := some "Unknown tool: make_coffee" } : ToolResult).message = none := by
  exact ⟨rfl, rfl, rfl⟩

/-- C4 (amended) — for every tool name not in the registry and any
argument mapping, `execute_tool` returns — without raising and without
touching any state — a result carrying only the error string
`"Unknown tool: <name>"`; that result has no `success` and no `message`
field. -/
theorem c4_unknown_tool_nonfatal (env : EmailEnv) (st : CoordState)
    (name : String) (args : List (String × String))
    (hname : toolSig? name = none) :
    ∃ r : ToolResult, execute_tool env st name args = .ok (st, r) ∧
      r.error = some ("Unknown tool: " ++ name) ∧
      r.success = none ∧ r.message = none := by
  refine ⟨{ error := some ("Unknown tool: " ++ name) }, ?_, rfl, rfl, rfl⟩
  unfold execute_tool
  rw [hname]

/-- C4 witness: the amended theorem at the unregistered name
"make_coffee". -/
theorem c4_unknown_tool_witness :
    ∃ r : ToolResult, execute_tool defaultEnv initState "make_coffee" [] =
        .ok (initState, r) ∧
      r.error = some ("Unknown tool: " ++ "make_coffee") ∧
      r.success = none ∧ r.message = none :=
  c4_unknown_tool_nonfatal defaultEnv initState "make_coffee" [] (by decide)

theorem argmaxByTs_nil : argmaxByTs [] = none := rfl

theorem resolveAttachment_alias_session (a : ArchSt) (sess : Sess) (aid : String)
    (halias : pyLower aid ∈ attachAliases) (hne : aid ≠ "")
    {p : String × CaptureInfo} (hp : argmaxByTs sess = some p) :
    resolveAttachment a sess (some aid) = (some p.2.filepath, some p.1) := by
  simp [resolveAttachment, hne, halias, hp]

theorem resolveAttachment_alias_global (a : ArchSt) (aid : String)
    (halias : pyLower aid ∈ attachAliases) (hne : aid ≠ "")
    {p : String × CaptureInfo} (hp : argmaxByTs a.captured_frames = some p) :
    resolveAttachment a [] (some aid) = (some p.2.filepath, some p.1) := by
  simp [resolveAttachment, hne, halias, argmaxByTs_nil, hp]

theorem resolveAttachment_both_empty (a : ArchSt) (aid : String)
    (halias : pyLower aid ∈ attachAliases) (hne : aid ≠ "")
    (hcf : a.captured_frames = []) :
    resolveAttachment a [] (some aid) = (none, none) := by
  simp [resolveAttachment, hne, halias, argmaxByTs_nil, hcf]

theorem resolveAttachment_literal_absent (a : ArchSt) (sess : Sess) (lid : String)
    (halias : pyLower lid ∉ attachAliases) (hne : lid ≠ "")
    (habs : dictGet? a.captured_frames lid = none) :
    resolveAttachment a sess (some lid) = (none, none) := by
  simp [resolveAttachment, hne, halias, habs]

theorem send_email_success_shape (env : EmailEnv) (a : ArchSt) (sess : Sess)
    (rcpt : Option String) (subject body : String) (att : Option String)
    (hc : env.credsOk = true) (hs : env.sendOk = true) :
    send_email env a sess rcpt subject body att =
      { success := some true,
        recipient := some (resolveRecipient rcpt),
        subject := some subject,
        message_id := some env.message_id,
        attached_image :=
          (match (resolveAttachment a sess att).1 with
           | some p => if dictContains a.files p then some p else none
           | none => none).map pathName,
        attached_frame_id := (resolveAttachment a sess att).2,
        message := some ("Email sent to " ++ resolveRecipient rcpt ++
          (match (resolveAttachment a sess att).2 with
           | some af => " with attachment " ++ af
           | none => " (no attachment)")) } := by
  unfold send_email
  rw [hc, hs]
  rfl

/-- C7 — attachment resolution of `send_email` under working credentials
and a successful provider send: an alias (`current`/`latest`/`last`/
`this`/`that`) attaches the most-recent-by-timestamp session entry when
the session view is non-empty, falls back to the most-recent global entry
when only the global archive is non-empty, and with both empty the email
is sent with no attachment and a `success=true` result; a literal id
absent from the archive is ignored without error, and a resolved file
missing on disk leaves the email sent without an attachment. -/
theorem c7_email_attachment_resolution (env : EmailEnv) (a : ArchSt) (sess : Sess)
    (rcpt : Option String) (subject body aid : String)
    (hc : env.credsOk = true) (hs : env.sendOk = true)
    (halias : pyLower aid ∈ attachAliases) (haid : aid ≠ "") :
    (∀ p : String × CaptureInfo, argmaxByTs sess = some p →
      resolveAttachment a sess (some aid) = (some p.2.filepath, some p.1) ∧
      p ∈ sess ∧ (∀ q ∈ sess, q.2.timestamp ≤ p.2.timestamp) ∧
      (dictContains a.files p.2.filepath = true →
        (send_email env a sess rcpt subject body (some aid)).attached_image =
          some (pathName p.2.filepath) ∧
        (send_email env a sess rcpt subject body (some aid)).attached_frame_id = some p.1 ∧
        (send_email env a sess rcpt subject body (some aid)).success = some true)) ∧
    (∀ p : String × CaptureInfo, argmaxByTs a.captured_frames = some p →
      resolveAttachment a [] (some aid) = (some p.2.filepath, some p.1) ∧
      p ∈ a.captured_frames ∧
      (∀ q ∈ a.captured_frames, q.2.timestamp ≤ p.2.timestamp) ∧
      (dictContains a.files p.2.filepath = true →
        (send_email env a [] rcpt subject body (some aid)).attached_image =
          some (pathName p.2.filepath) ∧
        (send_email env a [] rcpt subject body (some aid)).attached_frame_id = some p.1 ∧
        (send_email env a [] rcpt subject body (some aid)).success = some true)) ∧
    (a.captured_frames = [] →
      (send_email env a [] rcpt subject body (some aid)).success = some true ∧
      (send_email env a [] rcpt subject body (some aid)).attached_image = none ∧
      (send_email env a [] rcpt subject body (some aid)).attached_frame_id = none) ∧
    (∀ lid : String, pyLower lid ∉ attachAliases → lid ≠ "" →
      dictGet? a.captured_frames lid = none →
      (send_email env a sess rcpt subject body (some lid)).success = some true ∧
      (send_email env a sess rcpt subject body (some lid)).attached_image = none) ∧
    (∀ (path : String) (fr : String),
      resolveAttachment a sess (some aid) = (some path, some fr) →
      dictContains a.files path = false →
      (send_email env a sess rcpt subject body (some aid)).success = some true ∧
      (send_email env a sess rcpt subject body (some aid)).attached_image = none) := by
  refine ⟨?_, ?_, ?_, ?_, ?_⟩
  · intro p hp
    have hne : sess ≠ [] := by
      intro h
      rw [h] at hp
      simp [argmaxByTs] at hp
    obtain ⟨p', hp', hmem, hmax⟩ := argmaxByTs_spec hne
    have hpp : p' = p := by
      rw [hp] at hp'
      exact (Option.some.inj hp').symm
    subst hpp
    have hres := resolveAttachment_alias_session a sess aid halias haid hp
    refine ⟨hres, hmem, hmax, ?_⟩
    intro hfile
    rw [send_email_success_shape env a sess rcpt subject body (some aid) hc hs, hres]
    simp [hfile]
  · intro p hp
    have hne : a.captured_frames ≠ [] := by
      intro h
      rw [h] at hp
      simp [argmaxByTs] at hp
    obtain ⟨p', hp', hmem, hmax⟩ := argmaxByTs_spec hne
    have hpp : p' = p := by
      rw [hp] at hp'
      exact (Option.some.inj hp').symm
    subst hpp
    have hres := resolveAttachment_alias_global a aid halias haid hp
    refine ⟨hres, hmem, hmax, ?_⟩
    intro hfile
    rw [send_email_success_shape env a [] rcpt subject body (some aid) hc hs, hres]
    simp [hfile]
  · intro hcf
    have hres := resolveAttachment_both_empty a aid halias haid hcf
    rw [send_email_success_shape env a [] rcpt subject body (some aid) hc hs, hres]
    exact ⟨rfl, rfl, rfl⟩
  · intro lid hl1 hl2 hl3
    have hres := resolveAttachment_literal_absent a sess lid hl1 hl2 hl3
    rw [send_email_success_shape env a sess rcpt subject body (some lid) hc hs, hres]
    exact ⟨rfl, rfl⟩
  · intro path fr hres hfile
    rw [send_email_success_shape env a sess rcpt subject body (some aid) hc hs, hres]
    simp [hfile]

/-- C7 witness: the theorem applied with both the session view and the
global archive empty and the alias "latest" — the email is sent with no
attachment and a success result. -/
theorem c7_email_attachment_witness :
    (send_email defaultEnv arch0 [] none "s" "b" (some "latest")).success = some true ∧
    (send_email defaultEnv arch0 [] none "s" "b" (some "latest")).attached_image = none ∧
    (send_email defaultEnv arch0 [] none "s" "b" (some "latest")).attached_frame_id = none :=
  (c7_email_attachment_resolution defaultEnv arch0 [] none "s" "b" "latest"
    (by decide) (by decide) (by decide) (by decide)).2.2.1 (by decide)

theorem textStep_found (st : CoordState) (t : String)
    (hmode : st.sstate.continuous_mode = true) (ht : t ≠ "")
    (hf : strContains (st.current_text ++ pyLower t) "found" = true) :
    textStep st (some t) =
      ({ st with
          sstate := { st.sstate with continuous_mode := false, monitoring_context := none },
          current_text := "" },
       [ClientEvent.toolExecuted "disable_continuous_monitoring" disableResult,
        ClientEvent.monitoringDisabled,
        ClientEvent.itemFound st.sstate.monitoring_context]) := by
  have hcond : (st.sstate.continuous_mode &&
      (strContains (st.current_text ++ pyLower t) "found" ||
       strContains (st.current_text ++ pyLower t) "FOUND")) = true := by
    rw [hmode, hf]
    rfl
  simp [textStep, ht, hcond, disable_continuous_monitoring, disableResult]

/-- C5 — when the outbound relay sees a response whose accumulated
lowercased text contains the "found" marker while monitoring is active
(socket open, text-only response): it disables monitoring
(`continuous_mode` false, `monitoring_context` none), emits exactly one
`item_found` client event carrying the pre-disable monitoring context,
and resets the text accumulator to empty. -/
theorem c5_found_marker_autostop (env : EmailEnv) (st : CoordState)
    (t : String) (d : Option String) (tc : Bool)
    (hopen : st.websocket_open = true)
    (hmode : st.sstate.continuous_mode = true)
    (ht : t ≠ "")
    (hf : strContains (st.current_text ++ pyLower t) "found" = true) :
    (processResponse env st
        { text := some t, tool_call := none, data := d, turn_complete := tc }).1.sstate.continuous_mode
        = false ∧
    (processResponse env st
        { text := some t, tool_call := none, data := d, turn_complete := tc }).1.sstate.monitoring_context
        = none ∧
    (processResponse env st
        { text := some t, tool_call := none, data := d, turn_complete := tc }).1.current_text = "" ∧
    ((processResponse env st
        { text := some t, tool_call := none, data := d, turn_complete := tc }).2.1.countP
        isItemFoundEv) = 1 ∧
    ClientEvent.itemFound st.sstate.monitoring_context ∈
      (processResponse env st
        { text := some t, tool_call := none, data := d, turn_complete := tc }).2.1 := by
  have hstep := textStep_found st t hmode ht hf
  unfold processResponse
  rw [hopen]
  simp only [Bool.true_eq_false, if_false, hstep, tailStep]
  constructor
  · split <;> split <;> rfl
  constructor
  · split <;> split <;> rfl
  constructor
  · split
    · split <;> rfl
    · split <;> rfl
  constructor
  · rcases d with _ | dd
    · simp [isItemFoundEv]
      split <;> rfl
    · by_cases hdd : dd = ""
      · subst hdd
        simp [isItemFoundEv]
        split <;> rfl
      · simp [isItemFoundEv, hdd]
        split <;> rfl
  · rcases d with _ | dd
    · simp
      split <;> simp
    · by_cases hdd : dd = ""
      · subst hdd
        simp
        split <;> simp
      · simp [hdd]
        split <;> simp

/-- C5 witness: a scripted monitoring session receiving
"I found your keys" — monitoring stops, one `item_found` event carries
the context "keys", and the accumulator is reset. -/
theorem c5_found_marker_witness :
    (processResponse defaultEnv
        { initState with sstate := { continuous_mode := true, monitoring_context := some "keys",
                                     last_notification_time := 0 } }
        { text := some "I found your keys", tool_call := none, data := none,
          turn_complete := false }).1.sstate.continuous_mode = false ∧
    (processResponse defaultEnv
        { initState with sstate := { continuous_mode := true, monitoring_context := some "keys",
                                     last_notification_time := 0 } }
        { text := some "I found your keys", tool_call := none, data := none,
          turn_complete := false }).1.sstate.monitoring_context = none ∧
    (processResponse defaultEnv
        { initState with sstate := { continuous_mode := true, monitoring_context := some "keys",
                                     last_notification_time := 0 } }
        { text := some "I found your keys", tool_call := none, data := none,
          turn_complete := false }).1.current_text = "" ∧
    ((processResponse defaultEnv
        { initState with sstate := { continuous_mode := true, monitoring_context := some "keys",
                                     last_notification_time := 0 } }
        { text := some "I found your keys", tool_call := none, data := none,
          turn_complete := false }).2.1.countP isItemFoundEv) = 1 ∧
    ClientEvent.itemFound
        ({ initState with sstate := { continuous_mode := true, monitoring_context := some "keys",
                                      last_notification_time := 0 } } : CoordState).sstate.monitoring_context ∈
      (processResponse defaultEnv
        { initState with sstate := { continuous_mode := true, monitoring_context := some "keys",
                                     last_notification_time := 0 } }
        { text := some "I found your keys", tool_call := none, data := none,
          turn_complete := false }).2.1 :=
  c5_found_marker_autostop defaultEnv _ "I found your keys" none false
    (by decide) (by decide) (by decide) (by decide)

/-- C9 — the "found" marker is a case-insensitive plain substring match
over the accumulated turn text: whenever the lowercased accumulation
contains "found" anywhere — also inside longer words such as "profound"
or "foundation" — and monitoring is active, the auto-stop fires (the mode
is forced off and an `item_found` event is emitted); no word boundary or
prescribed "FOUND …" phrase is required. -/
theorem c9_found_is_substring_match (env : EmailEnv) (st : CoordState)
    (t : String) (d : Option String) (tc : Bool)
    (hopen : st.websocket_open = true)
    (hmode : st.sstate.continuous_mode = true)
    (ht : t ≠ "")
    (hsub : "found".data <:+: (st.current_text ++ pyLower t).data) :
    (processResponse env st
        { text := some t, tool_call := none, data := d, turn_complete := tc }).1.sstate.continuous_mode
        = false ∧
    ClientEvent.itemFound st.sstate.monitoring_context ∈
      (processResponse env st
        { text := some t, tool_call := none, data := d, turn_complete := tc }).2.1 := by
  have hf : strContains (st.current_text ++ pyLower t) "found" = true :=
    (occursInChars_iff _ _).mpr hsub
  have hstep := textStep_found st t hmode ht hf
  unfold processResponse
  rw [hopen]
  simp only [Bool.true_eq_false, if_false, hstep, tailStep]
  constructor
  · split <;> split <;> rfl
  · rcases d with _ | dd
    · simp
      split <;> simp
    · by_cases hdd : dd = ""
      · subst hdd
        simp
        split <;> simp
      · simp [hdd]
        split <;> simp

/-- C9 witness: the uppercase, non-standalone occurrence inside
"A PROFOUND thought" triggers the auto-stop. -/
theorem c9_substring_witness :
    (processResponse defaultEnv
        { initState with sstate := { continuous_mode := true, monitoring_context := some "keys",
                                     last_notification_time := 0 } }
        { text := some "A PROFOUND thought", tool_call := none, data := none,
          turn_complete := false }).1.sstate.continuous_mode = false ∧
    ClientEvent.itemFound
        ({ initState with sstate := { continuous_mode := true, monitoring_context := some "keys",
                                      last_notification_time := 0 } } : CoordState).sstate.monitoring_context ∈
      (processResponse defaultEnv
        { initState with sstate := { continuous_mode := true, monitoring_context := some "keys",
                                     last_notification_time := 0 } }
        { text := some "A PROFOUND thought", tool_call := none, data := none,
          turn_complete := false }).2.1 :=
  c9_found_is_substring_match defaultEnv _ "A PROFOUND thought" none false
    (by decide) (by decide) (by decide) (by decide)

/-- C8 — as frozen, the claim fails on its "persisted exactly once" part:
the handler `shutdown_session` itself persists the archive, and the
websocket handler's `finally` cleanup persists it again unconditionally,
so the shutdown path persists twice — once per phase — not exactly once.
Concrete refutation: a scripted stream with one successful
`shutdown_session` tool call yields 2 persists starting from 0. -/
theorem c8_counterexample_two_persists :
    (runCoordinator defaultEnv initState
        [{ text := none,
           tool_call := some [{ id := "1", name := "shutdown_session", args := [] }],
           data := none, turn_complete := false }]).1.arch.persistCount = 2 := by
  rfl

/-- C8 (amended) — when a `shutdown_session` tool call succeeds, the
coordinator begins teardown within the same event-processing step: no
further upstream responses are consumed; and over the whole shutdown path
(the tool call plus the teardown cleanup) the capture archive is
persisted exactly twice — once by the tool call and once by the cleanup —
not exactly once. -/
theorem c8_shutdown_same_step_two_persists (env : EmailEnv) (st : CoordState)
    (cid : String) (rest : List ResponseMsg)
    (hopen : st.websocket_open = true)
    (hsd : st.should_shutdown = false) :
    (runCoordinator env st
        ({ text := none,
           tool_call := some [{ id := cid, name := "shutdown_session", args := [] }],
           data := none, turn_complete := false } :: rest)).2.2 = 1 ∧
    (runCoordinator env st
        ({ text := none,
           tool_call := some [{ id := cid, name := "shutdown_session", args := [] }],
           data := none, turn_complete := false } :: rest)).1.arch.persistCount =
      st.arch.persistCount + 2 := by
  have hstep : processResponse env st
      { text := none,
        tool_call := some [{ id := cid, name := "shutdown_session", args := [] }],
        data := none, turn_complete := false } =
      (({ st with arch := save_metadata st.arch, should_shutdown := true,
                  websocket_open := false } : CoordState),
       [ClientEvent.toolExecuted "shutdown_session"
          { success := some true, message := some "Session ended successfully" }],
       [(cid, "shutdown_session",
          ({ success := some true, message := some "Session ended successfully" } : ToolResult))],
       true) := by
    simp [processResponse, hopen, textStep, processCalls, execute_tool, toolSig?,
      bindOk, runTool, shutdown_session, tailStep, save_metadata, hsd]
  unfold runCoordinator runRelay
  rw [hstep]
  simp [save_metadata]

/-- C8 witness: the amended theorem at the initial state with a further
scripted response after the shutdown call; that response is never
consumed and the persist count lands at exactly 2. -/
theorem c8_shutdown_witness :
    (runCoordinator defaultEnv initState
        [{ text := none,
           tool_call := some [{ id := "1", name := "shutdown_session", args := [] }],
           data := none, turn_complete := false },
         { text := some "ignored", tool_call := none, data := none,
           turn_complete := true }]).2.2 = 1 ∧
    (runCoordinator defaultEnv initState
        [{ text := none,
           tool_call := some [{ id := "1", name := "shutdown_session", args := [] }],
           data := none, turn_complete := false },
         { text := some "ignored", tool_call := none, data := none,
           turn_complete := true }]).1.arch.persistCount = initState.arch.persistCount + 2 :=
  c8_shutdown_same_step_two_persists defaultEnv initState "1"
    [{ text := some "ignored", tool_call := none, data := none, turn_complete := true }]
    (by decide) (by decide)

theorem monitorTick_sent {last : Nat} {i : TickInput}
    (h : (monitorTick last i).2 = true) :
    i.continuous_mode = true ∧ frameTruthy i.frame = true ∧
      1 ≤ pySeconds ((i.now : Int) - (last : Int)) ∧ (monitorTick last i).1 = i.now := by
  unfold monitorTick at h
  by_cases hc : (i.continuous_mode && frameTruthy i.frame) = true
  · by_cases hq : 1 ≤ 2 * pySeconds ((i.now : Int) - (last : Int))
    · have hmt : monitorTick last i = (i.now, true) := by
        unfold monitorTick
        rw [if_pos hc, if_pos hq]
      have hand : i.continuous_mode = true ∧ frameTruthy i.frame = true := by
        simpa using hc
      have hnn : 0 ≤ pySeconds ((i.now : Int) - (last : Int)) :=
        Int.emod_nonneg _ (by norm_num)
      exact ⟨hand.1, hand.2, by omega, by rw [hmt]⟩
    · rw [if_pos hc, if_neg hq] at h
      simp at h
  · rw [if_neg hc] at h
    simp at h

theorem monitorTick_not_sent {last : Nat} {i : TickInput}
    (h : (monitorTick last i).2 = false) : (monitorTick last i).1 = last := by
  unfold monitorTick at h ⊢
  by_cases hc : (i.continuous_mode && frameTruthy i.frame) = true
  · by_cases hq : 1 ≤ 2 * pySeconds ((i.now : Int) - (last : Int))
    · rw [if_pos hc, if_pos hq] at h
      simp at h
    · rw [if_pos hc, if_neg hq]
  · rw [if_neg hc]

theorem runMonitor_chain : ∀ (ticks : List TickInput) (last : Nat),
    (∀ j ∈ ticks, last ≤ j.now) →
    List.Pairwise (fun a b : TickInput => a.now ≤ b.now) ticks →
    List.Chain' (fun a b : Nat => a + 1 ≤ b) (runMonitor last ticks).2 ∧
      (∀ s ∈ (runMonitor last ticks).2.head?, last + 1 ≤ s) := by
  intro ticks
  induction ticks with
  | nil =>
    intro last _ _
    exact ⟨List.chain'_nil, by simp [runMonitor]⟩
  | cons i rest ih =>
    intro last h1 h2
    have hle : last ≤ i.now := h1 i (List.mem_cons_self i rest)
    have h2' := List.pairwise_cons.mp h2
    by_cases hs : (monitorTick last i).2 = true
    · obtain ⟨_, _, hmin, hupd⟩ := monitorTick_sent hs
      have hlt : last + 1 ≤ i.now := by
        have hd : 1 ≤ pySeconds ((i.now : Int) - (last : Int)) := hmin
        unfold pySeconds at hd
        omega
      have hrun : (runMonitor last (i :: rest)).2 = i.now :: (runMonitor i.now rest).2 := by
        simp [runMonitor, hs, hupd]
      have ihr := ih i.now (fun j hj => h2'.1 j hj) h2'.2
      constructor
      · rw [hrun]
        refine List.chain'_cons'.mpr ⟨?_, ihr.1⟩
        intro y hy
        exact ihr.2 y hy
      · intro s hsmem
        rw [hrun] at hsmem
        simp only [List.head?_cons, Option.mem_def, Option.some.injEq] at hsmem
        omega
    · have hsf : (monitorTick last i).2 = false := by
        simpa using hs
      have hupd := monitorTick_not_sent hsf
      have hrun : (runMonitor last (i :: rest)).2 = (runMonitor last rest).2 := by
        simp [runMonitor, hsf, hupd]
      have ihr := ih last (fun j hj => h1 j (List.mem_cons_of_mem i hj)) h2'.2
      rw [hrun]
      exact ihr

/-- C6 — the monitoring injector sends an upstream prompt on a wake-up
only if monitoring is active, a frame is present, and the integer-seconds
elapsed time since `last_notification_time` has reached the minimum
interval (the source compares `timedelta.seconds` with `0.5`, so at least
one whole second must have elapsed); each qualifying injection updates
`last_notification_time` to the wake-up time, and over any run with
nondecreasing wake-up clocks no two injections are sent within the
minimum interval — consecutive injection times differ by at least one
second, regardless of how fast frames arrive. -/
theorem c6_monitor_injection_discipline :
    (∀ (last : Nat) (i : TickInput), (monitorTick last i).2 = true →
      i.continuous_mode = true ∧ frameTruthy i.frame = true ∧
        1 ≤ pySeconds ((i.now : Int) - (last : Int)) ∧ (monitorTick last i).1 = i.now) ∧
    (∀ (last : Nat) (ticks : List TickInput),
      (∀ j ∈ ticks, last ≤ j.now) →
      List.Pairwise (fun a b : TickInput => a.now ≤ b.now) ticks →
      List.Chain' (fun a b : Nat => a + 1 ≤ b) (runMonitor last ticks).2) :=
  ⟨fun _ _ h => monitorTick_sent h,
   fun last ticks h1 h2 => (runMonitor_chain ticks last h1 h2).1⟩

/-- C6 witness: a concrete run with monitoring active and a frame present
at every wake-up; wake-ups at times 0, 1, 1, 3 inject exactly at times 1
and 3, one second or more apart. -/
theorem c6_monitor_witness :
    ((⟨1, true, some "f"⟩ : TickInput).continuous_mode = true ∧
      frameTruthy (⟨1, true, some "f"⟩ : TickInput).frame = true ∧
      1 ≤ pySeconds (((⟨1, true, some "f"⟩ : TickInput).now : Int) - ((0 : Nat) : Int)) ∧
      (monitorTick 0 ⟨1, true, some "f"⟩).1 = (⟨1, true, some "f"⟩ : TickInput).now) ∧
    List.Chain' (fun a b : Nat => a + 1 ≤ b)
      (runMonitor 0 [⟨0, true, some "f"⟩, ⟨1, true, some "f"⟩, ⟨1, true, some "f"⟩,
        ⟨3, true, some "f"⟩]).2 :=
  ⟨c6_monitor_injection_discipline.1 0 ⟨1, true, some "f"⟩ (by decide),
   c6_monitor_injection_discipline.2 0
     [⟨0, true, some "f"⟩, ⟨1, true, some "f"⟩, ⟨1, true, some "f"⟩, ⟨3, true, some "f"⟩]
     (by decide) (by decide)⟩

end Aiva
